import Mathlib

/-!
Verification of the CyDnA UDP telemetry protocol core (`src/src` of the
repository): wire-format contracts (`contracts.rs`), the transmit path
(`transmitter.rs`), the receive path (`receiver.rs`) and the
acknowledgment/retransmission loop (`ack_manager.rs`).

The Rust code is shallowly embedded: `u64`/`u32`/`u16`/`u8` values are
naturals with explicit saturating/wrapping arithmetic where the source uses
it, fallible operations return `Except`, and the effect of each socket call
(an external library operation) is an explicit input of the embedded
function, so every function is a pure, executable Lean definition.
-/

set_option maxRecDepth 4000

namespace CyDnA

/-- Modulus of the Rust `u64` type. -/
def U64_MOD : Nat := 2 ^ 64

/-- Largest `u64` value, the saturation point of `u64::saturating_add`,
`saturating_mul` and `saturating_pow`. -/
def U64_MAX : Nat := U64_MOD - 1

/-- Rust `u64::saturating_add`. -/
def satAdd (a b : Nat) : Nat := min (a + b) U64_MAX

/-- Rust `u64::saturating_mul`. -/
def satMul (a b : Nat) : Nat := min (a * b) U64_MAX

/-- Rust `u64::saturating_pow`. -/
def satPow (b e : Nat) : Nat := min (b ^ e) U64_MAX

/-- Protocol constant `MAX_PAYLOAD_SIZE` from `lib.rs`. -/
def MAX_PAYLOAD_SIZE : Nat := 1024

/-- Protocol constant `BACKOFF_MULTIPLIER` from `lib.rs`. -/
def BACKOFF_MULTIPLIER : Nat := 2

/-- Protocol constant `MAX_RETRANSMIT_ATTEMPTS` from `lib.rs`. -/
def MAX_RETRANSMIT_ATTEMPTS : Nat := 3

/-- The error enumeration `CyDnAError` from `errors.rs`. -/
inductive CyDnAError where
  | IoError (msg : String)
  | SerializationError (msg : String)
  | DeserializationError (msg : String)
  | IntegrityCheckFailed (expected actual : Nat)
  | PayloadExpired (timestamp_ms ttl_ms : Nat)
  | InvalidDeviceId (id : Nat)
  | InvalidBatteryLevel (level : Nat)
  | AckTimeout
  | MaxRetriesExceeded
  | InvalidPacketLength (expected received : Nat)
  | SignatureVerificationFailed
  | InvalidGatewayId (id : Nat)
  | BufferTooSmall (required available : Nat)
  deriving DecidableEq

/-- The `SensorPayload` struct from `contracts.rs`.  Each `f32` entry of
`anomaly_ai_vector` is represented by its 32-bit pattern, since the wire
codec moves those bits verbatim and never interprets them numerically. -/
structure SensorPayload where
  device_unique_id : Nat
  timestamp_ms_utc : Nat
  sensor_model_version : Nat
  battery_level_percent : Nat
  time_to_live_ms : Nat
  raw_data_hash_crc : Nat
  anomaly_ai_vector : List Nat
  deriving DecidableEq

/-- Machine-representation bounds of a `SensorPayload`: every field fits its
Rust integer type and the anomaly vector has the fixed length
`ANOMALY_VECTOR_SIZE = 32` of the `[f32; 32]` array. -/
def SensorPayload.Wf (p : SensorPayload) : Prop :=
  p.device_unique_id < 2 ^ 32 ∧
  p.timestamp_ms_utc < 2 ^ 64 ∧
  p.sensor_model_version < 2 ^ 16 ∧
  p.battery_level_percent < 2 ^ 8 ∧
  p.time_to_live_ms < 2 ^ 16 ∧
  p.raw_data_hash_crc < 2 ^ 32 ∧
  p.anomaly_ai_vector.length = 32 ∧
  ∀ x ∈ p.anomaly_ai_vector, x < 2 ^ 32

instance (p : SensorPayload) : Decidable p.Wf := by
  unfold SensorPayload.Wf
  infer_instance

/-- The validating constructor `SensorPayload::new` from `contracts.rs`:
the device id is checked first (zero is rejected), then the battery level
(values above 100 are rejected), and only then is the value assembled. -/
def SensorPayload.new (device_unique_id timestamp_ms_utc sensor_model_version
    battery_level_percent time_to_live_ms raw_data_hash_crc : Nat)
    (anomaly_ai_vector : List Nat) : Except CyDnAError SensorPayload :=
  if device_unique_id = 0 then
    .error (.InvalidDeviceId device_unique_id)
  else if battery_level_percent > 100 then
    .error (.InvalidBatteryLevel battery_level_percent)
  else
    .ok ⟨device_unique_id, timestamp_ms_utc, sensor_model_version,
      battery_level_percent, time_to_live_ms, raw_data_hash_crc,
      anomaly_ai_vector⟩

/-- `SensorPayload::expiration_time_ms` from `contracts.rs`:
`timestamp_ms_utc.saturating_add(time_to_live_ms as u64)`. -/
def SensorPayload.expiration_time_ms (p : SensorPayload) : Nat :=
  satAdd p.timestamp_ms_utc p.time_to_live_ms

/-- `SensorPayload::is_expired` from `contracts.rs`:
`current_time_ms > timestamp_ms_utc.saturating_add(time_to_live_ms as u64)`. -/
def SensorPayload.is_expired (p : SensorPayload) (current_time_ms : Nat) : Bool :=
  decide (satAdd p.timestamp_ms_utc p.time_to_live_ms < current_time_ms)

/-- The `AckPacket` struct from `contracts.rs` (16 bytes on the wire). -/
structure AckPacket where
  device_unique_id : Nat
  original_timestamp_ms : Nat
  ack_type : Nat
  _padding : List Nat
  deriving DecidableEq

/-- `AckPacket::ack` from `contracts.rs`. -/
def AckPacket.ack (device_unique_id original_timestamp_ms : Nat) : AckPacket :=
  ⟨device_unique_id, original_timestamp_ms, 0, [0, 0, 0]⟩

/-- `AckPacket::nack` from `contracts.rs`. -/
def AckPacket.nack (device_unique_id original_timestamp_ms : Nat) : AckPacket :=
  ⟨device_unique_id, original_timestamp_ms, 1, [0, 0, 0]⟩

/-- `AckPacket::is_ack` (and `ArchivedAckPacket::is_ack`) from
`contracts.rs`: `ack_type == 0`. -/
def AckPacket.is_ack (a : AckPacket) : Bool :=
  decide (a.ack_type = 0)

/-- `AckManager::calculate_backoff_ms` from `ack_manager.rs`:
`base_ms.saturating_mul(BACKOFF_MULTIPLIER.saturating_pow(attempt)).min(max_delay_ms)`. -/
def calculate_backoff_ms (attempt base_ms max_delay_ms : Nat) : Nat :=
  min (satMul base_ms (satPow BACKOFF_MULTIPLIER attempt)) max_delay_ms

/-- Little-endian byte string of a value in `width` bytes (each byte a
natural below 256).  This renders the fixed multi-byte integer layout that
the rkyv serializer emits for each field; the spec leaves the byte order an
open question, and little-endian is the one fixed here. -/
def toLEBytes : Nat → Nat → List Nat
  | 0, _ => []
  | width + 1, v => v % 256 :: toLEBytes width (v / 256)

/-- Value of a little-endian byte string. -/
def fromLEBytes (bytes : List Nat) : Nat :=
  bytes.foldr (fun b acc => b + 256 * acc) 0

/-- `Transmitter::serialize_payload` from `transmitter.rs`, i.e. the fixed
deterministic rkyv encoding of a `SensorPayload`: the seven fields in
declaration order (`u32`, `u64`, `u16`, `u8`, `u16`, `u32`, 32 x `f32`)
followed by the three padding bytes of the documented 152-byte layout.
The `f32` entries are moved bit-for-bit as 4-byte words.  The rkyv
serializer is infallible for this fixed-size struct, so the encoding is a
total function; `Transmitter::serialize_payload` wraps it in `Ok`. -/
def serialize_payload (p : SensorPayload) : List Nat :=
  toLEBytes 4 p.device_unique_id ++
  (toLEBytes 8 p.timestamp_ms_utc ++
  (toLEBytes 2 p.sensor_model_version ++
  (toLEBytes 1 p.battery_level_percent ++
  (toLEBytes 2 p.time_to_live_ms ++
  (toLEBytes 4 p.raw_data_hash_crc ++
  (p.anomaly_ai_vector.flatMap (toLEBytes 4) ++
  [0, 0, 0]))))))

/-- Decoder for the anomaly vector region: reads consecutive 4-byte
little-endian words until fewer than 4 bytes remain. -/
def decodeChunks4 : List Nat → List Nat
  | b0 :: b1 :: b2 :: b3 :: rest => fromLEBytes [b0, b1, b2, b3] :: decodeChunks4 rest
  | _ => []

/-- Structural decode of a serialized `SensorPayload`, as performed by
`check_archived_root::<SensorPayload>` in `Receiver::receive`
(`receiver.rs`): the buffer must hold the full 152-byte archived value, and
each field is read back from its fixed offset. -/
def deserialize_payload (bytes : List Nat) : Option SensorPayload :=
  if bytes.length = 152 then
    some
      { device_unique_id := fromLEBytes (bytes.take 4)
        timestamp_ms_utc := fromLEBytes ((bytes.drop 4).take 8)
        sensor_model_version := fromLEBytes (((bytes.drop 4).drop 8).take 2)
        battery_level_percent := fromLEBytes ((((bytes.drop 4).drop 8).drop 2).take 1)
        time_to_live_ms := fromLEBytes (((((bytes.drop 4).drop 8).drop 2).drop 1).take 2)
        raw_data_hash_crc :=
          fromLEBytes ((((((bytes.drop 4).drop 8).drop 2).drop 1).drop 2).take 4)
        anomaly_ai_vector :=
          decodeChunks4 (((((((bytes.drop 4).drop 8).drop 2).drop 1).drop 2).drop 4).take 128) }
  else none

/-- Outcome of the one `socket.send_to` call a transmit performs; its value
is an input of the embedded functions since the socket is external. -/
inductive SendOutcome where
  | sent (n : Nat)
  | ioError (msg : String)

/-- `Transmitter::send` from `transmitter.rs`: encode, fail with
`BufferTooSmall` before any I/O when the encoding exceeds
`MAX_PAYLOAD_SIZE`, otherwise perform exactly one datagram send.  The
second component logs the datagrams actually handed to the socket. -/
def Transmitter.send (sock : List Nat → SendOutcome) (p : SensorPayload) :
    Except CyDnAError Nat × List (List Nat) :=
  let bytes := serialize_payload p
  if bytes.length > MAX_PAYLOAD_SIZE then
    (.error (.BufferTooSmall bytes.length MAX_PAYLOAD_SIZE), [])
  else
    match sock bytes with
    | .sent n => (.ok n, [bytes])
    | .ioError msg => (.error (.IoError msg), [bytes])

/-- `Transmitter::send_raw` from `transmitter.rs`: the same size check and
single-send contract on caller-supplied bytes. -/
def Transmitter.send_raw (sock : List Nat → SendOutcome) (bytes : List Nat) :
    Except CyDnAError Nat × List (List Nat) :=
  if bytes.length > MAX_PAYLOAD_SIZE then
    (.error (.BufferTooSmall bytes.length MAX_PAYLOAD_SIZE), [])
  else
    match sock bytes with
    | .sent n => (.ok n, [bytes])
    | .ioError msg => (.error (.IoError msg), [bytes])

/-- Outcome of the one `socket.recv_from` call in
`AckManager::wait_for_ack`, together with what
`check_archived_root::<AckPacket>` yields on the received bytes (the
library decode is alignment- and memory-dependent, so its verdict is an
input): `ok` carries the byte count and the decode verdict, `timeout`
covers the `WouldBlock`/`TimedOut` error kinds, `ioError` every other
receive failure. -/
inductive RecvOutcome where
  | ok (bytesReceived : Nat) (decoded : Except Unit AckPacket)
  | timeout
  | ioError (msg : String)

/-- `AckManager::wait_for_ack` from `ack_manager.rs`: one inbound datagram
is inspected; a timeout or an under-16-byte datagram is `Ok(false)`, a
failed structural decode is a hard `DeserializationError`, and a decoded
packet yields `Ok(true)` exactly when device id and original timestamp
match the expected values and the packet is an ACK. -/
def wait_for_ack (device_unique_id original_timestamp_ms : Nat)
    (r : RecvOutcome) : Except CyDnAError Bool :=
  match r with
  | .ok bytesReceived decoded =>
    if bytesReceived < 16 then
      .ok false
    else
      match decoded with
      | .error _ => .error (.DeserializationError "Failed to parse ACK packet")
      | .ok archived =>
        if archived.device_unique_id = device_unique_id ∧
            archived.original_timestamp_ms = original_timestamp_ms ∧
            archived.is_ack = true then
          .ok true
        else
          .ok false
  | .timeout => .ok false
  | .ioError msg => .error (.IoError msg)

/-- `Receiver::receive_with_ttl_check` from `receiver.rs`, parameterized by
the outcome of `Receiver::receive` (payload view, byte count and sender
address on success): after a successful receive the payload is rejected
with `PayloadExpired` exactly when
`current_time_ms > timestamp_ms_utc.saturating_add(ttl)`. -/
def receive_with_ttl_check
    (received : Except CyDnAError (SensorPayload × Nat × String))
    (current_time_ms : Nat) :
    Except CyDnAError (SensorPayload × Nat × String) :=
  match received with
  | .error e => .error e
  | .ok (archived, bytes_received, sender_addr) =>
    if satAdd archived.timestamp_ms_utc archived.time_to_live_ms < current_time_ms then
      .error (.PayloadExpired archived.timestamp_ms_utc archived.time_to_live_ms)
    else
      .ok (archived, bytes_received, sender_addr)

/-- Per-attempt behaviour of the external socket during
`AckManager::send_critical_alert`: the result of the `Transmitter::send`
call, of `socket.set_read_timeout` (`some msg` being an I/O failure with
that message), and of the `recv_from` inside `wait_for_ack`. -/
structure AlertEnv where
  transmit : Nat → Except CyDnAError Nat
  setTimeout : Nat → Option String
  recv : Nat → RecvOutcome

/-- Observable socket interactions of one `send_critical_alert` run. -/
inductive AlertEvent where
  | transmit (attempt : Nat)
  | setTimeout (attempt ms : Nat)
  | wait (attempt : Nat)
  deriving DecidableEq

/-- Number of payload transmissions recorded in a trace. -/
def countTransmits (evs : List AlertEvent) : Nat :=
  (evs.filter fun e => match e with | .transmit _ => true | _ => false).length

/-- The `for attempt in 0..max_retries` loop of
`AckManager::send_critical_alert` (`ack_manager.rs`), with `fuel` the
number of attempts still permitted (so `attempt = max_retries - fuel`):
transmit (a failure propagates), compute the attempt's backoff from
`base_timeout_ms` and the `u64` product `base_timeout_ms * 10`, set the
socket read timeout, wait for the ack; `true` returns success, a `false`
on attempt `max_retries - 1` returns `MaxRetriesExceeded`, and the
fall-through after the loop also returns `MaxRetriesExceeded`. -/
def alertLoop (env : AlertEnv) (p : SensorPayload)
    (maxRetries baseTimeoutMs : Nat) : Nat → Except CyDnAError Bool × List AlertEvent
  | 0 => (.error .MaxRetriesExceeded, [])
  | fuel + 1 =>
    let attempt := maxRetries - (fuel + 1)
    match env.transmit attempt with
    | .error e => (.error e, [.transmit attempt])
    | .ok _ =>
      let timeoutMs :=
        calculate_backoff_ms attempt baseTimeoutMs (baseTimeoutMs * 10 % U64_MOD)
      match env.setTimeout attempt with
      | some msg =>
        (.error (.IoError msg), [.transmit attempt, .setTimeout attempt timeoutMs])
      | none =>
        match wait_for_ack p.device_unique_id p.timestamp_ms_utc (env.recv attempt) with
        | .error e =>
          (.error e,
            [.transmit attempt, .setTimeout attempt timeoutMs, .wait attempt])
        | .ok true =>
          (.ok true,
            [.transmit attempt, .setTimeout attempt timeoutMs, .wait attempt])
        | .ok false =>
          if attempt = maxRetries - 1 then
            (.error .MaxRetriesExceeded,
              [.transmit attempt, .setTimeout attempt timeoutMs, .wait attempt])
          else
            let next := alertLoop env p maxRetries baseTimeoutMs fuel
            (next.1,
              .transmit attempt :: .setTimeout attempt timeoutMs :: .wait attempt ::
                next.2)

/-- `AckManager::send_critical_alert` from `ack_manager.rs`: run the retry
loop over all `max_retries` attempts, returning the result together with
the trace of socket interactions. -/
def send_critical_alert (env : AlertEnv) (p : SensorPayload)
    (maxRetries baseTimeoutMs : Nat) : Except CyDnAError Bool × List AlertEvent :=
  alertLoop env p maxRetries baseTimeoutMs maxRetries

/-- Modelled from the specification's description of the retry loop (the
refinement target for the loop claims): iterate over the attempt numbers in
ascending order; each attempt transmits the payload exactly once (a
transmit failure propagates immediately, aborting the loop), sets the
socket read timeout to `calculate_backoff_ms(attempt, base_timeout_ms,
base_timeout_ms * 10)` and calls `wait_for_ack` with the payload's device
id and timestamp; the first `true` returns success immediately, and a
`false` on the final attempt fails with `MaxRetriesExceeded`. -/
def alertSpecLoop (env : AlertEnv) (p : SensorPayload) (baseTimeoutMs : Nat) :
    List Nat → Except CyDnAError Bool × List AlertEvent
  | [] => (.error .MaxRetriesExceeded, [])
  | attempt :: rest =>
    match env.transmit attempt with
    | .error e => (.error e, [.transmit attempt])
    | .ok _ =>
      let timeoutMs :=
        calculate_backoff_ms attempt baseTimeoutMs (baseTimeoutMs * 10 % U64_MOD)
      match env.setTimeout attempt with
      | some msg =>
        (.error (.IoError msg), [.transmit attempt, .setTimeout attempt timeoutMs])
      | none =>
        match wait_for_ack p.device_unique_id p.timestamp_ms_utc (env.recv attempt) with
        | .error e =>
          (.error e,
            [.transmit attempt, .setTimeout attempt timeoutMs, .wait attempt])
        | .ok true =>
          (.ok true,
            [.transmit attempt, .setTimeout attempt timeoutMs, .wait attempt])
        | .ok false =>
          match rest with
          | [] =>
            (.error .MaxRetriesExceeded,
              [.transmit attempt, .setTimeout attempt timeoutMs, .wait attempt])
          | _ :: _ =>
            let next := alertSpecLoop env p baseTimeoutMs rest
            (next.1,
              .transmit attempt :: .setTimeout attempt timeoutMs :: .wait attempt ::
                next.2)

/-- The specification's retry loop over attempts `0, 1, ..., max_retries - 1`. -/
def send_critical_alert_spec (env : AlertEnv) (p : SensorPayload)
    (maxRetries baseTimeoutMs : Nat) : Except CyDnAError Bool × List AlertEvent :=
  alertSpecLoop env p baseTimeoutMs (List.range maxRetries)

lemma satMul_satPow_two (b a : Nat) :
    satMul b (satPow 2 a) = min (b * 2 ^ a) U64_MAX := by
  unfold satMul satPow
  rcases Nat.eq_zero_or_pos b with hb | hb
  · subst hb
    simp
  · rcases le_or_lt (2 ^ a) U64_MAX with hp | hp
    · rw [Nat.min_eq_left hp]
    · rw [Nat.min_eq_right hp.le]
      have h1 : U64_MAX ≤ b * U64_MAX := Nat.le_mul_of_pos_left _ hb
      have h2 : U64_MAX ≤ b * 2 ^ a :=
        le_trans hp.le (Nat.le_mul_of_pos_left _ hb)
      omega

/-- Claim C3: `calculate_backoff_ms(attempt, base_ms, max_delay_ms)` is the
pure function `min(base_ms * 2 ^ attempt, max_delay_ms)` computed with
saturating multiplication and exponentiation (multiplier 2), it never
exceeds the `u64` range for any attempt count, and on
`(n, 100, 5000)` for `n = 0..=10` it yields
`100, 200, 400, 800, 1600, 3200, 5000, 5000, 5000, 5000, 5000`. -/
theorem calculate_backoff_ms_spec (attempt base_ms max_delay_ms : Nat)
    (hb : base_ms ≤ U64_MAX) (hm : max_delay_ms ≤ U64_MAX) :
    (calculate_backoff_ms attempt base_ms max_delay_ms =
        min (base_ms * 2 ^ attempt) max_delay_ms ∧
      calculate_backoff_ms attempt base_ms max_delay_ms ≤ U64_MAX) ∧
    (List.range 11).map (fun n => calculate_backoff_ms n 100 5000) =
      [100, 200, 400, 800, 1600, 3200, 5000, 5000, 5000, 5000, 5000] := by
  constructor
  · unfold calculate_backoff_ms BACKOFF_MULTIPLIER
    rw [satMul_satPow_two]
    omega
  · decide

/-- Witness for claim C3 at attempt 6, base 100, cap 5000. -/
theorem calculate_backoff_ms_spec_witness :
    calculate_backoff_ms 6 100 5000 = min (100 * 2 ^ 6) 5000 :=
  (calculate_backoff_ms_spec 6 100 5000 (by decide) (by decide)).1.1

/-- Claim C4: `is_expired(now)` holds exactly when `now` strictly exceeds
the saturating sum `T + L` (the expiry instant itself is not expired),
`receive_with_ttl_check` fails with `PayloadExpired{timestamp_ms, ttl_ms}`
under exactly the same condition on `current_time_ms`, the saturating sum
never leaves the `u64` range, and whenever `T + L` does not saturate,
`is_expired (T+L) = false` and `is_expired (T+L+1) = true`. -/
theorem is_expired_ttl_boundary (p : SensorPayload) (now : Nat) :
    (p.is_expired now = true ↔
      satAdd p.timestamp_ms_utc p.time_to_live_ms < now) ∧
    (∀ n addr,
      receive_with_ttl_check (.ok (p, n, addr)) now =
        if satAdd p.timestamp_ms_utc p.time_to_live_ms < now then
          .error (.PayloadExpired p.timestamp_ms_utc p.time_to_live_ms)
        else .ok (p, n, addr)) ∧
    satAdd p.timestamp_ms_utc p.time_to_live_ms ≤ U64_MAX ∧
    (p.timestamp_ms_utc + p.time_to_live_ms ≤ U64_MAX →
      p.is_expired (p.timestamp_ms_utc + p.time_to_live_ms) = false ∧
      p.is_expired (p.timestamp_ms_utc + p.time_to_live_ms + 1) = true) := by
  refine ⟨by simp [SensorPayload.is_expired], fun n addr => rfl, ?_, fun hns => ?_⟩
  · unfold satAdd
    omega
  · unfold SensorPayload.is_expired satAdd
    constructor
    · simp
      omega
    · simp

/-- Witness for claim C4: a payload stamped at 1000 with ttl 100 is fresh
at 1100 and expired at 1101. -/
theorem is_expired_ttl_boundary_witness :
    (⟨1, 1000, 1, 50, 100, 0, []⟩ : SensorPayload).is_expired 1100 = false ∧
    (⟨1, 1000, 1, 50, 100, 0, []⟩ : SensorPayload).is_expired 1101 = true :=
  (is_expired_ttl_boundary ⟨1, 1000, 1, 50, 100, 0, []⟩ 0).2.2.2 (by decide)

/-- Claim C9: when `timestamp_ms_utc + time_to_live_ms` exceeds `u64::MAX`,
the saturating addition pins the expiry instant at `u64::MAX`, so the
payload is not expired at any representable time and
`receive_with_ttl_check` passes it through unconditionally. -/
theorem saturated_ttl_never_expires (p : SensorPayload)
    (hsat : U64_MAX < p.timestamp_ms_utc + p.time_to_live_ms) :
    satAdd p.timestamp_ms_utc p.time_to_live_ms = U64_MAX ∧
    (∀ now, now ≤ U64_MAX → p.is_expired now = false) ∧
    (∀ now n addr, now ≤ U64_MAX →
      receive_with_ttl_check (.ok (p, n, addr)) now = .ok (p, n, addr)) := by
  have hpin : satAdd p.timestamp_ms_utc p.time_to_live_ms = U64_MAX := by
    unfold satAdd
    omega
  refine ⟨hpin, fun now hnow => ?_, fun now n addr hnow => ?_⟩
  · unfold SensorPayload.is_expired
    rw [hpin]
    simp
    omega
  · have hred : receive_with_ttl_check (.ok (p, n, addr)) now =
        if satAdd p.timestamp_ms_utc p.time_to_live_ms < now then
          .error (.PayloadExpired p.timestamp_ms_utc p.time_to_live_ms)
        else .ok (p, n, addr) := rfl
    rw [hred, hpin, if_neg (by omega)]

/-- Witness for claim C9: a payload stamped at `u64::MAX` with ttl 1 is
permanently fresh. -/
theorem saturated_ttl_never_expires_witness :
    (⟨1, 2 ^ 64 - 1, 1, 50, 1, 0, []⟩ : SensorPayload).is_expired 0 = false :=
  ((saturated_ttl_never_expires ⟨1, 2 ^ 64 - 1, 1, 50, 1, 0, []⟩
    (by decide)).2.1) 0 (by decide)

/-- Claim C6: `SensorPayload::new` rejects a zero device id with
`InvalidDeviceId`, rejects (for a non-zero id) a battery level above 100
with `InvalidBatteryLevel`, and otherwise returns `Ok` of a value whose
seven fields are the arguments verbatim; the error paths return no value
at all. -/
theorem sensor_payload_new_spec (id ts ver bat ttl crc : Nat) (vec : List Nat) :
    (id = 0 →
      SensorPayload.new id ts ver bat ttl crc vec = .error (.InvalidDeviceId id)) ∧
    (id ≠ 0 → 100 < bat →
      SensorPayload.new id ts ver bat ttl crc vec =
        .error (.InvalidBatteryLevel bat)) ∧
    (id ≠ 0 → bat ≤ 100 →
      SensorPayload.new id ts ver bat ttl crc vec =
        .ok ⟨id, ts, ver, bat, ttl, crc, vec⟩) := by
  refine ⟨fun h0 => ?_, fun h0 hb => ?_, fun h0 hb => ?_⟩
  · simp [SensorPayload.new, h0]
  · simp [SensorPayload.new, h0, hb]
  · simp [SensorPayload.new, h0, Nat.not_lt.mpr hb]

/-- Witness for claim C6: id 0 is rejected, battery 101 is rejected,
battery 100 with id 7 is accepted verbatim. -/
theorem sensor_payload_new_spec_witness :
    SensorPayload.new 0 1 1 50 1 1 [] = .error (.InvalidDeviceId 0) ∧
    SensorPayload.new 7 1 1 101 1 1 [] = .error (.InvalidBatteryLevel 101) ∧
    SensorPayload.new 7 1 1 100 1 1 [] = .ok ⟨7, 1, 1, 100, 1, 1, []⟩ :=
  ⟨(sensor_payload_new_spec 0 1 1 50 1 1 []).1 rfl,
   (sensor_payload_new_spec 7 1 1 101 1 1 []).2.1 (by decide) (by decide),
   (sensor_payload_new_spec 7 1 1 100 1 1 []).2.2 (by decide) (by decide)⟩

/-- Claim C2: `wait_for_ack` inspects one inbound datagram and returns
`Ok(false)` on timeout, `Ok(false)` when fewer than 16 bytes arrive,
`Err(DeserializationError)` when at least 16 bytes arrive but the
structural decode fails, and on a successful decode `Ok(true)` exactly when
the decoded device id, original timestamp and ACK type all match — any
mismatch or a NACK yields `Ok(false)`. -/
theorem wait_for_ack_cases (d t : Nat) (r : RecvOutcome) :
    (r = .timeout → wait_for_ack d t r = .ok false) ∧
    (∀ nb dec, r = .ok nb dec → nb < 16 → wait_for_ack d t r = .ok false) ∧
    (∀ nb u, r = .ok nb (.error u) → 16 ≤ nb →
      wait_for_ack d t r = .error (.DeserializationError "Failed to parse ACK packet")) ∧
    (∀ nb a, r = .ok nb (.ok a) → 16 ≤ nb →
      (wait_for_ack d t r = .ok true ↔
        a.device_unique_id = d ∧ a.original_timestamp_ms = t ∧ a.is_ack = true) ∧
      (¬(a.device_unique_id = d ∧ a.original_timestamp_ms = t ∧ a.is_ack = true) →
        wait_for_ack d t r = .ok false)) := by
  refine ⟨fun h => by subst h; rfl,
    fun nb dec h hlt => by subst h; simp [wait_for_ack, hlt],
    fun nb u h hge => by subst h; simp [wait_for_ack, Nat.not_lt.mpr hge],
    fun nb a h hge => ?_⟩
  subst h
  constructor
  · constructor
    · intro hres
      by_contra hmatch
      simp [wait_for_ack, Nat.not_lt.mpr hge, hmatch] at hres
    · intro hmatch
      simp [wait_for_ack, Nat.not_lt.mpr hge, hmatch]
  · intro hmatch
    simp [wait_for_ack, Nat.not_lt.mpr hge, hmatch]

/-- Witness for claim C2: a matching ACK from device 7 at timestamp 1000 in
a 16-byte datagram is accepted, and a NACK with the same identity is not. -/
theorem wait_for_ack_cases_witness :
    wait_for_ack 7 1000 (.ok 16 (.ok (AckPacket.ack 7 1000))) = .ok true ∧
    wait_for_ack 7 1000 (.ok 16 (.ok (AckPacket.nack 7 1000))) = .ok false ∧
    wait_for_ack 7 1000 .timeout = .ok false :=
  ⟨((wait_for_ack_cases 7 1000 (.ok 16 (.ok (AckPacket.ack 7 1000)))).2.2.2
      16 (AckPacket.ack 7 1000) rfl (by decide)).1.mpr (by decide),
   ((wait_for_ack_cases 7 1000 (.ok 16 (.ok (AckPacket.nack 7 1000)))).2.2.2
      16 (AckPacket.nack 7 1000) rfl (by decide)).2 (by decide),
   (wait_for_ack_cases 7 1000 .timeout).1 rfl⟩

lemma length_toLEBytes (w v : Nat) : (toLEBytes w v).length = w := by
  induction w generalizing v with
  | zero => rfl
  | succ w ih => simp [toLEBytes, ih]

lemma fromLEBytes_cons (b : Nat) (l : List Nat) :
    fromLEBytes (b :: l) = b + 256 * fromLEBytes l := rfl

lemma fromLEBytes_toLEBytes (w v : Nat) (h : v < 256 ^ w) :
    fromLEBytes (toLEBytes w v) = v := by
  induction w generalizing v with
  | zero =>
    simp [toLEBytes, fromLEBytes]
    omega
  | succ w ih =>
    have hd : v / 256 < 256 ^ w := by
      rw [Nat.div_lt_iff_lt_mul (by norm_num)]
      calc v < 256 ^ (w + 1) := h
        _ = 256 ^ w * 256 := by ring
    rw [toLEBytes, fromLEBytes_cons, ih _ hd]
    omega

lemma length_flatMap_toLEBytes (vs : List Nat) :
    (vs.flatMap (toLEBytes 4)).length = 4 * vs.length := by
  induction vs with
  | nil => rfl
  | cons v vs ih =>
    rw [List.flatMap_cons, List.length_append, length_toLEBytes, ih,
      List.length_cons]
    ring

lemma decodeChunks4_flatMap (vs : List Nat) (h : ∀ x ∈ vs, x < 2 ^ 32) :
    decodeChunks4 (vs.flatMap (toLEBytes 4)) = vs := by
  induction vs with
  | nil => rfl
  | cons v vs ih =>
    have hv : v < 256 ^ 4 := by
      have hv' := h v (by simp)
      norm_num at hv' ⊢
      exact hv'
    have hcons : (v :: vs).flatMap (toLEBytes 4) =
        v % 256 :: v / 256 % 256 :: v / 256 / 256 % 256 ::
          v / 256 / 256 / 256 % 256 :: vs.flatMap (toLEBytes 4) := rfl
    have hchunk :
        fromLEBytes [v % 256, v / 256 % 256, v / 256 / 256 % 256,
          v / 256 / 256 / 256 % 256] = fromLEBytes (toLEBytes 4 v) := rfl
    rw [hcons, decodeChunks4, hchunk, fromLEBytes_toLEBytes 4 v hv,
      ih fun x hx => h x (by simp [hx])]

lemma length_serialize_payload (p : SensorPayload)
    (h : p.anomaly_ai_vector.length = 32) : (serialize_payload p).length = 152 := by
  unfold serialize_payload
  simp only [List.length_append, length_toLEBytes, length_flatMap_toLEBytes, h,
    List.length_cons, List.length_nil]

/-- Claim C8: the encoding of a `SensorPayload` is deterministic (equal
logical field values give byte-identical output) and the structural decode
of an encoded payload reproduces every field exactly, the 32 `f32` vector
entries bit-for-bit. -/
theorem serialize_payload_roundtrip (p : SensorPayload) (hWf : p.Wf) :
    deserialize_payload (serialize_payload p) = some p ∧
    ∀ q : SensorPayload,
      q.device_unique_id = p.device_unique_id →
      q.timestamp_ms_utc = p.timestamp_ms_utc →
      q.sensor_model_version = p.sensor_model_version →
      q.battery_level_percent = p.battery_level_percent →
      q.time_to_live_ms = p.time_to_live_ms →
      q.raw_data_hash_crc = p.raw_data_hash_crc →
      q.anomaly_ai_vector = p.anomaly_ai_vector →
      serialize_payload q = serialize_payload p := by
  obtain ⟨h1, h2, h3, h4, h5, h6, h7, h8⟩ := hWf
  constructor
  · have hlen : (serialize_payload p).length = 152 := length_serialize_payload p h7
    have hvecLen : (p.anomaly_ai_vector.flatMap (toLEBytes 4)).length = 128 := by
      rw [length_flatMap_toLEBytes, h7]
    have e1 : (256 : Nat) ^ 4 = 2 ^ 32 := by norm_num
    have e2 : (256 : Nat) ^ 8 = 2 ^ 64 := by norm_num
    have e3 : (256 : Nat) ^ 2 = 2 ^ 16 := by norm_num
    have e4 : (256 : Nat) ^ 1 = 2 ^ 8 := by norm_num
    unfold deserialize_payload
    rw [if_pos hlen]
    unfold serialize_payload
    rw [List.take_left' (length_toLEBytes 4 p.device_unique_id),
      List.drop_left' (length_toLEBytes 4 p.device_unique_id),
      List.take_left' (length_toLEBytes 8 p.timestamp_ms_utc),
      List.drop_left' (length_toLEBytes 8 p.timestamp_ms_utc),
      List.take_left' (length_toLEBytes 2 p.sensor_model_version),
      List.drop_left' (length_toLEBytes 2 p.sensor_model_version),
      List.take_left' (length_toLEBytes 1 p.battery_level_percent),
      List.drop_left' (length_toLEBytes 1 p.battery_level_percent),
      List.take_left' (length_toLEBytes 2 p.time_to_live_ms),
      List.drop_left' (length_toLEBytes 2 p.time_to_live_ms),
      List.take_left' (length_toLEBytes 4 p.raw_data_hash_crc),
      List.drop_left' (length_toLEBytes 4 p.raw_data_hash_crc),
      List.take_left' hvecLen,
      fromLEBytes_toLEBytes 4 _ (e1 ▸ h1),
      fromLEBytes_toLEBytes 8 _ (e2 ▸ h2),
      fromLEBytes_toLEBytes 2 _ (e3 ▸ h3),
      fromLEBytes_toLEBytes 1 _ (e4 ▸ h4),
      fromLEBytes_toLEBytes 2 _ (e3 ▸ h5),
      fromLEBytes_toLEBytes 4 _ (e1 ▸ h6),
      decodeChunks4_flatMap _ h8]
  · intro q hq1 hq2 hq3 hq4 hq5 hq6 hq7
    simp [serialize_payload, hq1, hq2, hq3, hq4, hq5, hq6, hq7]

/-- Witness for claim C8: the end-to-end example payload (device 42,
timestamp 1699470000000, version 1, battery 75, ttl 5000, crc 0xdeadbeef,
zero vector) decodes back to itself. -/
theorem serialize_payload_roundtrip_witness :
    deserialize_payload (serialize_payload
        ⟨42, 1699470000000, 1, 75, 5000, 3735928559, List.replicate 32 0⟩) =
      some ⟨42, 1699470000000, 1, 75, 5000, 3735928559, List.replicate 32 0⟩ :=
  (serialize_payload_roundtrip
    ⟨42, 1699470000000, 1, 75, 5000, 3735928559, List.replicate 32 0⟩
    (by decide)).1

/-- Claim C7: every successfully encoded `SensorPayload` is at most 1024
bytes, so `Transmitter::send` never takes its `BufferTooSmall` branch and
always performs exactly one datagram send whose byte count it returns;
and whenever a byte string does exceed `MAX_PAYLOAD_SIZE = 1024`, the
send path returns `BufferTooSmall{required, available}` before any socket
I/O (empty send log). -/
theorem transmitter_send_size_bound (p : SensorPayload)
    (sock : List Nat → SendOutcome) (h : p.anomaly_ai_vector.length = 32) :
    ((serialize_payload p).length ≤ MAX_PAYLOAD_SIZE ∧
      (∀ r a, (Transmitter.send sock p).1 ≠ .error (.BufferTooSmall r a)) ∧
      (Transmitter.send sock p).2 = [serialize_payload p] ∧
      (∀ m, sock (serialize_payload p) = .sent m →
        (Transmitter.send sock p).1 = .ok m)) ∧
    (∀ bytes : List Nat, MAX_PAYLOAD_SIZE < bytes.length →
      Transmitter.send_raw sock bytes =
        (.error (.BufferTooSmall bytes.length MAX_PAYLOAD_SIZE), [])) := by
  have hlen : (serialize_payload p).length = 152 := length_serialize_payload p h
  have hnot : ¬ (serialize_payload p).length > MAX_PAYLOAD_SIZE := by
    rw [hlen]
    decide
  constructor
  · refine ⟨by rw [hlen]; decide, ?_, ?_, ?_⟩
    · intro r a
      unfold Transmitter.send
      rw [if_neg hnot]
      cases hs : sock (serialize_payload p) <;> simp
    · unfold Transmitter.send
      rw [if_neg hnot]
      cases hs : sock (serialize_payload p) <;> simp
    · intro m hm
      unfold Transmitter.send
      rw [if_neg hnot, hm]
  · intro bytes hbig
    unfold Transmitter.send_raw
    rw [if_pos hbig]

/-- Witness for claim C7: the example payload's 152-byte encoding is within
the 1024-byte cap and is handed to the socket exactly once. -/
theorem transmitter_send_size_bound_witness :
    (serialize_payload
        ⟨42, 1699470000000, 1, 75, 5000, 3735928559, List.replicate 32 0⟩).length ≤
      MAX_PAYLOAD_SIZE ∧
    (Transmitter.send (fun _ => .sent 152)
        ⟨42, 1699470000000, 1, 75, 5000, 3735928559, List.replicate 32 0⟩).2 =
      [serialize_payload
        ⟨42, 1699470000000, 1, 75, 5000, 3735928559, List.replicate 32 0⟩] :=
  ⟨(transmitter_send_size_bound
      ⟨42, 1699470000000, 1, 75, 5000, 3735928559, List.replicate 32 0⟩
      (fun _ => .sent 152) (by decide)).1.1,
   (transmitter_send_size_bound
      ⟨42, 1699470000000, 1, 75, 5000, 3735928559, List.replicate 32 0⟩
      (fun _ => .sent 152) (by decide)).1.2.2.1⟩

/-- Claim C10: `send_critical_alert` with `max_retries = 0` returns
`MaxRetriesExceeded` immediately: the loop body never runs, so nothing is
transmitted, the read timeout is never set and no receive is attempted
(the interaction trace is empty). -/
theorem send_critical_alert_zero_retries (env : AlertEnv) (p : SensorPayload)
    (baseTimeoutMs : Nat) :
    send_critical_alert env p 0 baseTimeoutMs = (.error .MaxRetriesExceeded, []) :=
  rfl

lemma alertLoop_eq_spec (env : AlertEnv) (p : SensorPayload) (n b : Nat) :
    ∀ fuel, fuel ≤ n →
      alertLoop env p n b fuel =
        alertSpecLoop env p b (List.range' (n - fuel) fuel) := by
  intro fuel
  induction fuel with
  | zero => intro _; rfl
  | succ f ih =>
    intro hle
    rw [List.range'_succ, show n - (f + 1) + 1 = n - f from by omega]
    simp only [alertLoop, alertSpecLoop]
    cases ht : env.transmit (n - (f + 1)) with
    | error e => rfl
    | ok m =>
      simp only
      cases hs : env.setTimeout (n - (f + 1)) with
      | some msg => rfl
      | none =>
        simp only
        cases hw : wait_for_ack p.device_unique_id p.timestamp_ms_utc
            (env.recv (n - (f + 1))) with
        | error e => rfl
        | ok ack =>
          cases ack with
          | true => rfl
          | false =>
            simp only
            cases f with
            | zero =>
              rw [if_pos (show n - (0 + 1) = n - 1 from rfl)]
              rfl
            | succ f' =>
              rw [if_neg (show ¬ n - (f' + 1 + 1) = n - 1 from by omega)]
              rw [List.range'_succ]
              simp only [ih (by omega), List.range'_succ]

lemma countTransmits_cons3 (a1 a2 m a3 : Nat) (evs : List AlertEvent) :
    countTransmits (.transmit a1 :: .setTimeout a2 m :: .wait a3 :: evs) =
      countTransmits evs + 1 := by
  simp [countTransmits, List.filter]

lemma alertLoop_noack (env : AlertEnv) (p : SensorPayload) (n b : Nat) :
    ∀ fuel, fuel ≤ n →
      (∀ k, n - fuel ≤ k → k < n →
        (∃ m, env.transmit k = .ok m) ∧ env.setTimeout k = none ∧
          env.recv k = .timeout) →
      (alertLoop env p n b fuel).1 = .error .MaxRetriesExceeded ∧
      countTransmits (alertLoop env p n b fuel).2 = fuel := by
  intro fuel
  induction fuel with
  | zero => exact fun _ _ => ⟨rfl, rfl⟩
  | succ f ih =>
    intro hle henv
    obtain ⟨⟨m, hm⟩, hs, hr⟩ := henv (n - (f + 1)) (le_refl _) (by omega)
    simp only [alertLoop, hm, hs, hr]
    have hwait : wait_for_ack p.device_unique_id p.timestamp_ms_utc .timeout =
        .ok false := rfl
    rw [hwait]
    cases f with
    | zero =>
      rw [if_pos (show n - (0 + 1) = n - 1 from rfl)]
      exact ⟨rfl, rfl⟩
    | succ f' =>
      rw [if_neg (show ¬ n - (f' + 1 + 1) = n - 1 from by omega)]
      have hrec := ih (by omega) (fun k hk1 hk2 => henv k (by omega) hk2)
      simp only
      exact ⟨hrec.1, by rw [countTransmits_cons3, hrec.2]⟩

lemma alertLoop_first_transmit_error (env : AlertEnv) (p : SensorPayload)
    (n b : Nat) (e : CyDnAError) (hn : 1 ≤ n) (ht : env.transmit 0 = .error e) :
    send_critical_alert env p n b = (.error e, [.transmit 0]) := by
  obtain ⟨m, rfl⟩ : ∃ m, n = m + 1 := ⟨n - 1, by omega⟩
  unfold send_critical_alert
  simp only [alertLoop, Nat.sub_self, ht]

lemma alertLoop_first_recv_ioError (env : AlertEnv) (p : SensorPayload)
    (n b m : Nat) (msg : String) (hn : 1 ≤ n) (ht : env.transmit 0 = .ok m)
    (hs : env.setTimeout 0 = none) (hr : env.recv 0 = .ioError msg) :
    (send_critical_alert env p n b).1 = .error (.IoError msg) := by
  obtain ⟨m', rfl⟩ : ∃ m', n = m' + 1 := ⟨n - 1, by omega⟩
  unfold send_critical_alert
  simp only [alertLoop, Nat.sub_self, ht, hs, hr]
  rfl

/-- Claim C1: for `max_retries = n >= 1` the retry loop of
`send_critical_alert` behaves exactly as specified — per attempt one
transmit (a transmit failure propagating immediately), the read timeout
set to `calculate_backoff_ms(attempt, base, base * 10)`, one
`wait_for_ack` on the payload's identity, immediate success on the first
`true`, `MaxRetriesExceeded` after the final `false` — stated as equality
with the specification loop over attempts `0..n`; and against an
environment that never acknowledges, all `n` attempts transmit and the
result is `MaxRetriesExceeded`. -/
theorem send_critical_alert_retry_loop (env : AlertEnv) (p : SensorPayload)
    (n b : Nat) (hn : 1 ≤ n) :
    send_critical_alert env p n b = send_critical_alert_spec env p n b ∧
    ((∀ k, k < n →
        (∃ m, env.transmit k = .ok m) ∧ env.setTimeout k = none ∧
          env.recv k = .timeout) →
      (send_critical_alert env p n b).1 = .error .MaxRetriesExceeded ∧
      countTransmits (send_critical_alert env p n b).2 = n) := by
  constructor
  · unfold send_critical_alert send_critical_alert_spec
    have h := alertLoop_eq_spec env p n b n (le_refl n)
    rwa [Nat.sub_self, ← List.range_eq_range'] at h
  · intro h
    exact alertLoop_noack env p n b n (le_refl n) (fun k _ hk2 => h k hk2)

/-- A sensor payload used as the concrete input of the loop witnesses. -/
def examplePayload : SensorPayload :=
  ⟨42, 1699470000000, 1, 75, 5000, 3735928559, List.replicate 32 0⟩

/-- An environment whose peer never acknowledges: every transmit succeeds,
every timeout set succeeds, every receive times out. -/
def neverAckEnv : AlertEnv :=
  ⟨fun _ => .ok 152, fun _ => none, fun _ => .timeout⟩

/-- Witness for claim C1: against a peer that never acknowledges, with
`max_retries = 3`, exactly 3 payloads are transmitted and the result is
`MaxRetriesExceeded`. -/
theorem send_critical_alert_retry_loop_witness :
    (send_critical_alert neverAckEnv examplePayload 3 100).1 =
      .error .MaxRetriesExceeded ∧
    countTransmits (send_critical_alert neverAckEnv examplePayload 3 100).2 = 3 :=
  (send_critical_alert_retry_loop neverAckEnv examplePayload 3 100
    (by decide)).2 (fun k _ => ⟨⟨152, rfl⟩, rfl, rfl⟩)

/-- An environment whose very first `Transmitter::send` fails with an I/O
error. -/
def transmitFailEnv : AlertEnv :=
  ⟨fun _ => .error (.IoError "connection refused"), fun _ => none,
    fun _ => .timeout⟩

/-- Counterexample to claim C5: an I/O error from the send operation inside
the retry loop is not recovered locally — with `max_retries = 3` the loop
aborts on attempt 0 and surfaces the `IoError` itself to the caller, not
`MaxRetriesExceeded`, with no attempt exhausted. -/
theorem transport_error_not_recovered :
    send_critical_alert transmitFailEnv examplePayload 3 100 =
      (.error (.IoError "connection refused"), [.transmit 0]) ∧
    (.error (.IoError "connection refused") : Except CyDnAError Bool) ≠
      .error .MaxRetriesExceeded := by
  refine ⟨rfl, fun h => ?_⟩
  injection h with h'
  exact CyDnAError.noConfusion h'

/-- Claim C5 (amended): timeout outcomes of the receive operation are
recovered locally by the bounded retry/backoff mechanism, and only after
all attempts time out does the loop surface `MaxRetriesExceeded`; hard I/O
errors from the send or the receive operation are not recovered — they
propagate immediately to the caller as `IoError`, aborting the loop. -/
theorem transport_recovery_amended (env : AlertEnv) (p : SensorPayload)
    (n b : Nat) (hn : 1 ≤ n) :
    ((∀ k, k < n →
        (∃ m, env.transmit k = .ok m) ∧ env.setTimeout k = none ∧
          env.recv k = .timeout) →
      (send_critical_alert env p n b).1 = .error .MaxRetriesExceeded) ∧
    (∀ e, env.transmit 0 = .error e →
      send_critical_alert env p n b = (.error e, [.transmit 0])) ∧
    (∀ m msg, env.transmit 0 = .ok m → env.setTimeout 0 = none →
      env.recv 0 = .ioError msg →
      (send_critical_alert env p n b).1 = .error (.IoError msg)) :=
  ⟨fun h =>
    (alertLoop_noack env p n b n (le_refl n) (fun k _ hk2 => h k hk2)).1,
   fun e ht => alertLoop_first_transmit_error env p n b e hn ht,
   fun m msg ht hs hr => alertLoop_first_recv_ioError env p n b m msg hn ht hs hr⟩

/-- An environment whose first receive fails with a hard I/O error. -/
def recvFailEnv : AlertEnv :=
  ⟨fun _ => .ok 152, fun _ => none, fun _ => .ioError "connection reset"⟩

/-- Witness for the amended claim C5: a hard receive error on attempt 0
surfaces as `IoError`, not `MaxRetriesExceeded`. -/
theorem transport_recovery_amended_witness :
    (send_critical_alert recvFailEnv examplePayload 3 100).1 =
      .error (.IoError "connection reset") :=
  (transport_recovery_amended recvFailEnv examplePayload 3 100
    (by decide)).2.2 152 "connection reset" rfl rfl rfl

end CyDnA
